import Mathlib

/-!
Verification of the CoinGecko API client core (`src/app/api.py`,
class `CoinGeckoAPI`) against its natural-language specification.

The embedding is shallow:
* JSON values are an inductive `Json` type; Python dicts are ordered
  association lists (`dict_get` / `dict_set` mirror CPython's
  insertion-ordered dict semantics: lookup by key, in-place overwrite,
  new keys appended at the end).
* Wall-clock time is a rational number.  `time.time()` reads a logical
  clock; `time.sleep(x)` advances the clock by exactly `x`; an extra
  drift parameter `d ≥ 0` accounts for time passing between the end of
  the sleep and the second `time.time()` call in `_respect_rate_limit`.
* The HTTP transport (`requests.Session.get`) is an oracle parameter of
  each call: either a response (status, reason, headers, parsed JSON
  body) or a network failure carrying the exception message.  The
  library call `response.raise_for_status()` raises exactly for
  statuses 400–599, with requests' message format
  "STATUS Client/Server Error: REASON for url: URL".
* The usage file `~/.coingecko_usage.json` is modelled as
  `FileState = Option (Except String Json)`: `none` means the file does
  not exist, `some (.error e)` an unreadable/corrupt file,
  `some (.ok j)` a file whose contents parse to `j`.  The library
  round trip `json.load ∘ json.dump` is the identity on JSON values.
-/

/-- JSON values, as produced by Python's `json` module. -/
inductive Json where
  | null : Json
  | bool : Bool → Json
  | num : ℚ → Json
  | str : String → Json
  | arr : List Json → Json
  | obj : List (String × Json) → Json
deriving Repr

/-- Python dict lookup `d[k]` / `d.get(k)`: first (unique) matching key. -/
def dict_get {α : Type} (d : List (String × α)) (k : String) : Option α :=
  match d with
  | [] => none
  | (k₂, v) :: rest => if k₂ = k then some v else dict_get rest k

/-- Python `k in d`. -/
def dict_member {α : Type} (d : List (String × α)) (k : String) : Bool :=
  (dict_get d k).isSome

/-- Python `d[k] = v`: overwrite in place when `k` is present, otherwise
append at the end (CPython dicts preserve insertion order). -/
def dict_set {α : Type} (d : List (String × α)) (k : String) (v : α) :
    List (String × α) :=
  match d with
  | [] => [(k, v)]
  | (k₂, w) :: rest =>
      if k₂ = k then (k₂, v) :: rest else (k₂, w) :: dict_set rest k v

/-- Python `d.update(other)`: assign every key/value pair of `other`
into `d`, in iteration order. -/
def dict_update {α : Type} (d other : List (String × α)) :
    List (String × α) :=
  other.foldl (fun acc kv => dict_set acc kv.1 kv.2) d

/-- A value stored in `rate_limit_info`: `_extract_rate_limit_headers`
stores `int(header)` when the conversion succeeds and the raw string
otherwise. -/
inductive RateValue where
  | int : Int → RateValue
  | str : String → RateValue
deriving Repr

/-- The in-memory usage record `self.usage_data`.  `daily_calls` is
`Option` because the `__init__` dict literal does not contain the key;
`_update_usage_stats` (or a loaded file) adds it later. -/
structure UsageData where
  total_calls : Nat
  calls_today : Nat
  first_call_date : Option String
  last_call_date : Option String
  rate_limit_info : List (String × RateValue)
  monthly_usage : List (String × Nat)
  endpoints_called : List (String × Nat)
  daily_calls : Option (List (String × Nat))
deriving Repr

/-- The default counter state built in `__init__` (before
`_load_usage_data` runs). -/
def freshUsage : UsageData :=
  { total_calls := 0
    calls_today := 0
    first_call_date := none
    last_call_date := none
    rate_limit_info := []
    monthly_usage := []
    endpoints_called := []
    daily_calls := none }

/-- Python truthiness test `not self.usage_data["first_call_date"]` on a
value that is `None` or a string. -/
def strFalsy : Option String → Bool
  | none => true
  | some s => s.isEmpty

/-- The counter-bump pattern used three times in `_update_usage_stats`:
`if k not in d: d[k] = 0` followed by `d[k] += 1`.  After the first
line the key is present, so the `getD 0` default is never the value
actually read. -/
def bump (d : List (String × Nat)) (k : String) : List (String × Nat) :=
  let d₁ := if dict_member d k then d else dict_set d k 0
  dict_set d₁ k ((dict_get d₁ k).getD 0 + 1)

/-- `CoinGeckoAPI._update_usage_stats` (src/app/api.py lines 88–130),
minus the trailing `_save_usage_data()` call, which is modelled at the
call site in `_make_request` as a file-state transition.  `today` and
`month` stand for `datetime.now().strftime(...)`. -/
def _update_usage_stats (u : UsageData) (endpoint : String)
    (rate_limit_info : List (String × RateValue)) (today month : String) :
    UsageData :=
  let u₁ := { u with total_calls := u.total_calls + 1 }
  let fcd := if strFalsy u₁.first_call_date then some today
             else u₁.first_call_date
  let u₂ := { u₁ with first_call_date := fcd }
  let u₃ := { u₂ with last_call_date := some today }
  let daily := bump (u₃.daily_calls.getD []) today
  let u₄ := { u₃ with daily_calls := some daily,
                      calls_today := (dict_get daily today).getD 0 }
  let u₅ := { u₄ with monthly_usage := bump u₄.monthly_usage month }
  let u₆ := { u₅ with endpoints_called := bump u₅.endpoints_called endpoint }
  let rli := if rate_limit_info.isEmpty then u₆.rate_limit_info
             else rate_limit_info
  { u₆ with rate_limit_info := rli }

/-- Serialisation of one `rate_limit_info` value by `json.dump`. -/
def encodeRateValue : RateValue → Json
  | RateValue.int n => Json.num n
  | RateValue.str s => Json.str s

/-- Serialisation of a counter dict by `json.dump`. -/
def encodeCounts (d : List (String × Nat)) : Json :=
  Json.obj (d.map (fun p => (p.1, Json.num p.2)))

/-- Serialisation of a `None`-or-string field by `json.dump`. -/
def encodeOptStr : Option String → Json
  | none => Json.null
  | some s => Json.str s

/-- The JSON object `json.dump(self.usage_data)` writes: the keys in
the insertion order of the `__init__` dict literal, with `daily_calls`
appended at the end when present (it is only ever added after the
seven initial keys). -/
def encodeUsage (u : UsageData) : List (String × Json) :=
  [("total_calls", Json.num u.total_calls),
   ("calls_today", Json.num u.calls_today),
   ("first_call_date", encodeOptStr u.first_call_date),
   ("last_call_date", encodeOptStr u.last_call_date),
   ("rate_limit_info",
     Json.obj (u.rate_limit_info.map (fun p => (p.1, encodeRateValue p.2)))),
   ("monthly_usage", encodeCounts u.monthly_usage),
   ("endpoints_called", encodeCounts u.endpoints_called)]
  ++ (match u.daily_calls with
      | none => []
      | some d => [("daily_calls", encodeCounts d)])

/-- State of the usage file `~/.coingecko_usage.json`: absent,
present-but-unreadable/corrupt, or parsed contents. -/
abbrev FileState : Type := Option (Except String Json)

/-- `CoinGeckoAPI._save_usage_data` (lines 145–154): overwrite the file
with the full serialised record; any write failure is swallowed and the
old contents remain. -/
def _save_usage_data (u : UsageData) (saveOk : Bool) (file : FileState) :
    FileState :=
  if saveOk then some (Except.ok (Json.obj (encodeUsage u))) else file

/-- One element of CPython's `dict.update(sequence)` path
(`PyDict_MergeFromSeq2`): each item must be an iterable of length 2
and is unpacked into a key/value pair.  `some acc` continues the
merge; `none` means this element raised (ValueError for a length
other than 2, TypeError for a non-iterable element or an unhashable
key), which the `try` in `_load_usage_data` swallows, keeping the
pairs already merged.  A `["k", v]` pair merges `k := v`.  A pair
whose key is a number, boolean or `None` inserts a non-string dict
key in Python and continues; such a key is invisible to every
string-keyed read the program ever performs, so the string-keyed
model records nothing for it and continues.  A pair whose key is a
list or dict is unhashable and raises.  A two-character string
element unpacks into its two characters; a two-key dict element
unpacks into its two keys. -/
def update_seq_elem (acc : List (String × Json)) : Json →
    Option (List (String × Json))
  | Json.arr [Json.str k, v] => some (dict_set acc k v)
  | Json.arr [Json.num _, _] => some acc
  | Json.arr [Json.bool _, _] => some acc
  | Json.arr [Json.null, _] => some acc
  | Json.arr [Json.arr _, _] => none
  | Json.arr [Json.obj _, _] => none
  | Json.arr _ => none
  | Json.str s =>
      match s.data with
      | [c₁, c₂] =>
          some (dict_set acc (String.mk [c₁]) (Json.str (String.mk [c₂])))
      | _ => none
  | Json.obj [(k₁, _), (k₂, _)] => some (dict_set acc k₁ (Json.str k₂))
  | Json.obj _ => none
  | Json.num _ => none
  | Json.bool _ => none
  | Json.null => none

/-- CPython's `dict.update` applied to a non-mapping payload: merge
the two-element items left to right; the first failing element
raises, and the surrounding `try` in `_load_usage_data` then keeps
the partially merged dict. -/
def dict_update_seq (d : List (String × Json)) : List Json →
    List (String × Json)
  | [] => d
  | item :: rest =>
      match update_seq_elem d item with
      | none => d
      | some d₂ => dict_update_seq d₂ rest

/-- `CoinGeckoAPI._load_usage_data` (lines 132–143), acting on the
JSON view of the in-memory dict: when the file exists and parses,
`self.usage_data.update(saved_data)`.  An object payload merges
key-by-key (`dict_update`); an array payload goes through the
sequence-of-pairs path (`dict_update_seq`).  A missing file, a read
or parse failure, or a string/number/boolean/null payload — where
`dict.update` raises before merging anything, or, for the empty
string, merges nothing — leaves the defaults unchanged. -/
def _load_usage_data (defaults : List (String × Json)) (file : FileState) :
    List (String × Json) :=
  match file with
  | some (Except.ok (Json.obj kvs)) => dict_update defaults kvs
  | some (Except.ok (Json.arr items)) => dict_update_seq defaults items
  | _ => defaults

/-- The header table of `_extract_rate_limit_headers` (lines 64–74). -/
def headers_to_extract : List (String × String) :=
  [("x-ratelimit-limit", "limit"),
   ("x-ratelimit-remaining", "remaining"),
   ("x-ratelimit-reset", "reset"),
   ("x-cg-pro-api-key", "api_key"),
   ("x-cg-api-credits-remaining-second", "credits_remaining_second"),
   ("x-cg-api-credits-remaining-minute", "credits_remaining_minute"),
   ("x-cg-api-credits-remaining-month", "credits_remaining_month"),
   ("x-cg-api-credits-used-month", "credits_used_month"),
   ("x-cg-api-credit-monthly-limit", "credits_monthly_limit")]

/-- `CoinGeckoAPI._extract_rate_limit_headers` (lines 59–86): for each
known header present in the response, store `int(value)` when the
conversion succeeds, the raw string otherwise. -/
def _extract_rate_limit_headers (headers : List (String × String)) :
    List (String × RateValue) :=
  headers_to_extract.foldl
    (fun acc p =>
      match dict_get headers p.1 with
      | none => acc
      | some v =>
          dict_set acc p.2
            (match v.toInt? with
             | some n => RateValue.int n
             | none => RateValue.str v))
    []

/-- An HTTP response as seen through `requests`: status code, reason
phrase, headers, and the parsed JSON body. -/
structure HTTPResponse where
  status : Nat
  reason : String
  headers : List (String × String)
  body : Json

/-- Outcome of one `self.session.get(...)` call: a response, or a
`requests.exceptions.RequestException` carrying `str(e)`. -/
inductive TransportResult where
  | ok : HTTPResponse → TransportResult
  | netError : String → TransportResult

/-- The mutable client object.  `base_url`, `api_key` and
`session_headers` come from the class attributes and `__init__`;
`last_request_time` starts at 0 and `rate_limit_wait` at 1.5. -/
structure ClientState where
  base_url : String
  api_key : String
  session_headers : List (String × String)
  last_request_time : ℚ
  rate_limit_wait : ℚ
  usage_data : UsageData

/-- The client produced by `__init__` (the in-memory counter defaults;
`_load_usage_data`, which only touches the usage record, is modelled
separately by `_load_usage_data`). -/
def initClient (base key : String) : ClientState :=
  { base_url := base
    api_key := key
    session_headers :=
      [("Accept", "application/json"),
       ("User-Agent", "CryptoStats CLI/0.1.0"),
       ("x-cg-api-key", key)]
    last_request_time := 0
    rate_limit_wait := 3 / 2
    usage_data := freshUsage }

/-- `CoinGeckoAPI._respect_rate_limit` (lines 49–57), returning the new
`last_request_time` (which is also the logical clock when the method
returns): read the clock, sleep for the remainder of the configured
wait when the elapsed time since the previous request start is
shorter, then read the clock again.  `d ≥ 0` is the drift the second
`time.time()` observes beyond the end of the sleep. -/
def _respect_rate_limit (clock last wait d : ℚ) : ℚ :=
  let elapsed := clock - last
  let afterSleep := if elapsed < wait then clock + (wait - elapsed) else clock
  afterSleep + d

/-- The message `requests.Response.raise_for_status` puts in the
`HTTPError` it raises for a 4xx/5xx status. -/
def http_error_text (status : Nat) (reason url : String) : String :=
  if status < 500 then
    toString status ++ " Client Error: " ++ reason ++ " for url: " ++ url
  else
    toString status ++ " Server Error: " ++ reason ++ " for url: " ++ url

/-- Everything one `_make_request` call produces: the client state, the
usage-file state, the logical clock at return, and the result (the
decoded body, or the message of the raised `Exception`). -/
structure RequestOutcome where
  state : ClientState
  file : FileState
  clock : ℚ
  result : Except String Json

/-- Per-call environment: the clock drift inside `_respect_rate_limit`,
the transport duration, the arguments, the transport oracle, the
current date strings, and whether the usage-file write succeeds. -/
structure CallEnv where
  d : ℚ
  tdur : ℚ
  endpoint : String
  params : List (String × String)
  transport : TransportResult
  today : String
  month : String
  saveOk : Bool

/-- `CoinGeckoAPI._make_request` (lines 165–191): rate-limit wait (which
sets `last_request_time`), then `session.get`; if the transport raises,
wrap the message in the generic error.  If a response arrives, extract
the rate-limit headers, update and persist the usage statistics, then
`raise_for_status` (wrapped in the same generic error for 4xx/5xx) and
finally return the decoded body. -/
def _make_request (c : ClientState) (file : FileState) (clock : ℚ)
    (env : CallEnv) : RequestOutcome :=
  let t := _respect_rate_limit clock c.last_request_time c.rate_limit_wait env.d
  let c₁ := { c with last_request_time := t }
  let url := c.base_url ++ "/" ++ env.endpoint
  match env.transport with
  | TransportResult.netError msg =>
      { state := c₁, file := file, clock := t + env.tdur,
        result := Except.error ("API request error: " ++ msg) }
  | TransportResult.ok resp =>
      let rli := _extract_rate_limit_headers resp.headers
      let u := _update_usage_stats c₁.usage_data env.endpoint rli
                 env.today env.month
      let c₂ := { c₁ with usage_data := u }
      let file₂ := _save_usage_data u env.saveOk file
      if 400 ≤ resp.status ∧ resp.status < 600 then
        { state := c₂, file := file₂, clock := t + env.tdur,
          result := Except.error ("API request error: "
            ++ http_error_text resp.status resp.reason url) }
      else
        { state := c₂, file := file₂, clock := t + env.tdur,
          result := Except.ok resp.body }

/-- A sequence of back-to-back `_make_request` calls: each call starts
at the clock value at which the previous one returned. -/
def runCalls : ClientState → FileState → ℚ → List CallEnv →
    List RequestOutcome
  | _, _, _, [] => []
  | c, f, k, e :: rest =>
      let o := _make_request c f k e
      o :: runCalls o.state o.file o.clock rest

/-- The request-start (dispatch) times of a call sequence: the value
`_respect_rate_limit` stores in `last_request_time` immediately before
`session.get` is issued. -/
def dispatchTimes (os : List RequestOutcome) : List ℚ :=
  os.map (fun o => o.state.last_request_time)

/-- Clock value after the last call of a sequence returns (`start` when
the sequence is empty). -/
def finalClock (start : ℚ) : List RequestOutcome → ℚ
  | [] => start
  | [o] => o.clock
  | _ :: o :: rest => finalClock start (o :: rest)

/-- The class-level environment checks of `CoinGeckoAPI`
(src/app/api.py lines 18–24): `os.getenv` yields `None` (unset) or the
string value; a `None` raises `ValueError` with the given message.  No
transport is involved: these checks run at class-definition time,
before any request can be issued. -/
def envCheck (value : Option String) (message : String) :
    Except String String :=
  match value with
  | none => Except.error message
  | some s => Except.ok s

/-- Both class-level checks in order: base URL first, then API key. -/
def classEnvInit (baseUrl apiKey : Option String) :
    Except String (String × String) := do
  let b ← envCheck baseUrl "COINGECKO_BASE_URL not set in environment variables."
  let k ← envCheck apiKey "COINGECKO_API_KEY not set in environment variables."
  Except.ok (b, k)

/-- `CoinGeckoAPI.get_trending_nfts` (lines 303–314), applied to the
decoded dict a successful `_make_request("search/trending")` returned:
`if response and "nfts" in response` keeps only the `"nfts"` entry,
otherwise the result is `{"nfts": []}`. -/
def get_trending_nfts (response : List (String × Json)) :
    List (String × Json) :=
  match response, dict_get response "nfts" with
  | [], _ => [("nfts", Json.arr [])]
  | _ :: _, some v => [("nfts", v)]
  | _ :: _, none => [("nfts", Json.arr [])]

/-- Lower bound established by the throttle: however the clock drifts
(`0 ≤ d`), the new `last_request_time` is at least the previous one
plus the configured wait. -/
theorem respect_rate_limit_ge_last (clock last wait : ℚ) {d : ℚ}
    (hd : 0 ≤ d) : last + wait ≤ _respect_rate_limit clock last wait d := by
  simp only [_respect_rate_limit]
  split <;> linarith

/-- The throttle never moves the clock backwards. -/
theorem respect_rate_limit_ge_clock (clock last wait : ℚ) {d : ℚ}
    (hd : 0 ≤ d) : clock ≤ _respect_rate_limit clock last wait d := by
  simp only [_respect_rate_limit]
  split <;> linarith

/-- Unfolding equation of `_make_request` for a transport failure. -/
theorem make_request_netError_eq (c : ClientState) (file : FileState)
    (clock d tdur : ℚ) (ep : String) (ps : List (String × String))
    (msg td mo : String) (so : Bool) :
    _make_request c file clock
        ⟨d, tdur, ep, ps, TransportResult.netError msg, td, mo, so⟩ =
      { state := { c with last_request_time :=
            _respect_rate_limit clock c.last_request_time c.rate_limit_wait d }
        file := file
        clock := _respect_rate_limit clock c.last_request_time
                   c.rate_limit_wait d + tdur
        result := Except.error ("API request error: " ++ msg) } := rfl

/-- Unfolding equation of `_make_request` for a received response. -/
theorem make_request_ok_eq (c : ClientState) (file : FileState)
    (clock d tdur : ℚ) (ep : String) (ps : List (String × String))
    (resp : HTTPResponse) (td mo : String) (so : Bool) :
    _make_request c file clock
        ⟨d, tdur, ep, ps, TransportResult.ok resp, td, mo, so⟩ =
      { state := { c with
            last_request_time :=
              _respect_rate_limit clock c.last_request_time
                c.rate_limit_wait d
            usage_data :=
              _update_usage_stats c.usage_data ep
                (_extract_rate_limit_headers resp.headers) td mo }
        file := _save_usage_data
            (_update_usage_stats c.usage_data ep
              (_extract_rate_limit_headers resp.headers) td mo) so file
        clock := _respect_rate_limit clock c.last_request_time
                   c.rate_limit_wait d + tdur
        result :=
          if 400 ≤ resp.status ∧ resp.status < 600 then
            Except.error ("API request error: "
              ++ http_error_text resp.status resp.reason
                   (c.base_url ++ "/" ++ ep))
          else Except.ok resp.body } := by
  by_cases h : 400 ≤ resp.status ∧ resp.status < 600 <;>
    simp [_make_request, h]

/-- Every call sets `last_request_time` to the value computed by
`_respect_rate_limit`, whatever the transport does. -/
theorem make_request_last (c : ClientState) (f : FileState) (k : ℚ)
    (env : CallEnv) :
    (_make_request c f k env).state.last_request_time =
      _respect_rate_limit k c.last_request_time c.rate_limit_wait env.d := by
  obtain ⟨d, tdur, ep, ps, tr, td, mo, so⟩ := env
  cases tr with
  | netError msg => rw [make_request_netError_eq]
  | ok resp => rw [make_request_ok_eq]

/-- `rate_limit_wait` is never modified by a call. -/
theorem make_request_wait (c : ClientState) (f : FileState) (k : ℚ)
    (env : CallEnv) :
    (_make_request c f k env).state.rate_limit_wait = c.rate_limit_wait := by
  obtain ⟨d, tdur, ep, ps, tr, td, mo, so⟩ := env
  cases tr with
  | netError msg => rw [make_request_netError_eq]
  | ok resp => rw [make_request_ok_eq]

/-- The clock at which a call returns. -/
theorem make_request_clock (c : ClientState) (f : FileState) (k : ℚ)
    (env : CallEnv) :
    (_make_request c f k env).clock =
      _respect_rate_limit k c.last_request_time c.rate_limit_wait env.d
        + env.tdur := by
  obtain ⟨d, tdur, ep, ps, tr, td, mo, so⟩ := env
  cases tr with
  | netError msg => rw [make_request_netError_eq]
  | ok resp => rw [make_request_ok_eq]

/-- The chain of dispatch times of a call sequence, anchored at the
client's incoming `last_request_time`: consecutive entries are at
least `rate_limit_wait` apart. -/
theorem runCalls_dispatch_chain (envs : List CallEnv) :
    ∀ (c : ClientState) (f : FileState) (k : ℚ),
      (∀ e ∈ envs, 0 ≤ e.d) →
      List.Chain' (fun a b => a + c.rate_limit_wait ≤ b)
        (c.last_request_time :: dispatchTimes (runCalls c f k envs)) := by
  induction envs with
  | nil =>
      intro c f k _
      simp [runCalls, dispatchTimes]
  | cons e rest ih =>
      intro c f k h
      have hd : 0 ≤ e.d := h e (List.mem_cons_self e rest)
      have hrest : ∀ x ∈ rest, 0 ≤ x.d :=
        fun x hx => h x (List.mem_cons_of_mem e hx)
      show List.Chain' _ (c.last_request_time ::
        dispatchTimes (_make_request c f k e ::
          runCalls (_make_request c f k e).state
            (_make_request c f k e).file (_make_request c f k e).clock rest))
      have htail := ih (_make_request c f k e).state
        (_make_request c f k e).file (_make_request c f k e).clock hrest
      rw [make_request_wait] at htail
      have hrel : c.last_request_time + c.rate_limit_wait ≤
          (_make_request c f k e).state.last_request_time := by
        rw [make_request_last]
        exact respect_rate_limit_ge_last k c.last_request_time
          c.rate_limit_wait hd
      exact List.chain'_cons.mpr ⟨hrel, htail⟩

/-- Claim C1: the throttle enforces start-to-start spacing.  For every
sequence of back-to-back `_make_request` calls, consecutive request
starts (the dispatch times the client records in `last_request_time`
immediately before issuing `session.get`, which is how the
specification measures the delay) are at least `rate_limit_wait`
apart; and three back-to-back calls on a freshly constructed client
(wait 1.5 s), with the last transport instantaneous, complete no
earlier than 3.0 s after the first call starts. -/
theorem rate_limit_spacing :
    (∀ (c : ClientState) (f : FileState) (k : ℚ) (envs : List CallEnv),
        (∀ e ∈ envs, 0 ≤ e.d) →
        List.Chain' (fun a b => a + c.rate_limit_wait ≤ b)
          (dispatchTimes (runCalls c f k envs)))
    ∧
    (∀ (base key : String) (c0 : ℚ) (e₁ e₂ e₃ : CallEnv),
        0 ≤ e₁.d → 0 ≤ e₂.d → 0 ≤ e₃.d → e₃.tdur = 0 →
        c0 + 3 ≤ finalClock c0
          (runCalls (initClient base key) none c0 [e₁, e₂, e₃])) := by
  constructor
  · intro c f k envs h
    exact (runCalls_dispatch_chain envs c f k h).tail
  · intro base key c0 e₁ e₂ e₃ h₁ h₂ h₃ ht
    set c := initClient base key with hc
    set o₁ := _make_request c none c0 e₁ with ho₁
    set o₂ := _make_request o₁.state o₁.file o₁.clock e₂ with ho₂
    set o₃ := _make_request o₂.state o₂.file o₂.clock e₃ with ho₃
    have hfc : finalClock c0 (runCalls c none c0 [e₁, e₂, e₃]) = o₃.clock := by
      simp [runCalls, finalClock, ho₁, ho₂, ho₃]
    rw [hfc]
    have hw₁ : o₁.state.rate_limit_wait = 3 / 2 := by
      rw [ho₁, make_request_wait, hc]
      rfl
    have hw₂ : o₂.state.rate_limit_wait = 3 / 2 := by
      rw [ho₂, make_request_wait, hw₁]
    have hD₁ := respect_rate_limit_ge_clock c0 c.last_request_time
      c.rate_limit_wait h₁
    rw [← make_request_last c none c0 e₁, ← ho₁] at hD₁
    have hD₂ := respect_rate_limit_ge_last o₁.clock
      o₁.state.last_request_time o₁.state.rate_limit_wait h₂
    rw [← make_request_last o₁.state o₁.file o₁.clock e₂, ← ho₂, hw₁] at hD₂
    have hD₃ := respect_rate_limit_ge_last o₂.clock
      o₂.state.last_request_time o₂.state.rate_limit_wait h₃
    rw [← make_request_last o₂.state o₂.file o₂.clock e₃, ← ho₃, hw₂] at hD₃
    have hclk : o₃.clock = o₃.state.last_request_time + e₃.tdur := by
      rw [ho₃, make_request_clock o₂.state o₂.file o₂.clock e₃,
        make_request_last o₂.state o₂.file o₂.clock e₃]
    rw [hclk, ht, add_zero]
    linarith

/-- A concrete successful response with an empty JSON object body. -/
def w_resp200 : HTTPResponse :=
  { status := 200, reason := "OK", headers := [], body := Json.obj [] }

/-- A concrete 500 response (non-empty body, to stress that the body
is irrelevant to the raised error). -/
def w_resp500 : HTTPResponse :=
  { status := 500, reason := "Internal Server Error", headers := []
    body := Json.obj [("error", Json.str "boom")] }

/-- The mocked `simple/price` body from the specification scenario. -/
def w_btc_body : Json :=
  Json.obj [("bitcoin", Json.obj [("usd", Json.num (57234.78 : ℚ))])]

/-- Instantaneous successful call environment. -/
def w_env_ok : CallEnv :=
  { d := 0, tdur := 0, endpoint := "simple/price", params := []
    transport := TransportResult.ok w_resp200
    today := "2026-10-12", month := "2026-10", saveOk := true }

/-- Instantaneous call environment whose transport returns a 500. -/
def w_env500 : CallEnv :=
  { d := 0, tdur := 0, endpoint := "simple/price", params := []
    transport := TransportResult.ok w_resp500
    today := "2026-10-12", month := "2026-10", saveOk := true }

/-- Instantaneous call environment whose transport fails at the
network level. -/
def w_env_net : CallEnv :=
  { d := 0, tdur := 0, endpoint := "simple/price", params := []
    transport := TransportResult.netError "Connection refused"
    today := "2026-10-12", month := "2026-10", saveOk := true }

/-- The specification's mocked-price scenario environment. -/
def w_env_btc : CallEnv :=
  { d := 0, tdur := 0, endpoint := "simple/price"
    params := [("ids", "bitcoin"), ("vs_currencies", "usd")]
    transport := TransportResult.ok
      { status := 200, reason := "OK", headers := [], body := w_btc_body }
    today := "2026-10-12", month := "2026-10", saveOk := true }

/-- Witness for C1: two instantaneous back-to-back calls have chained
dispatch times, and three such calls starting at clock 0 finish at
clock ≥ 3. -/
theorem rate_limit_spacing_witness :
    List.Chain'
      (fun a b => a + (initClient "https://api.example" "k").rate_limit_wait ≤ b)
      (dispatchTimes
        (runCalls (initClient "https://api.example" "k") none 0
          [w_env_ok, w_env_ok]))
    ∧ (0 : ℚ) + 3 ≤ finalClock 0
        (runCalls (initClient "https://api.example" "k") none 0
          [w_env_ok, w_env_ok, w_env_ok]) :=
  ⟨rate_limit_spacing.1 _ _ _ _
      (by simp [w_env_ok]),
   rate_limit_spacing.2 "https://api.example" "k" 0 w_env_ok w_env_ok w_env_ok
      (by norm_num [w_env_ok]) (by norm_num [w_env_ok])
      (by norm_num [w_env_ok]) rfl⟩

/-- Claim C9: every `_make_request` call sets `last_request_time` to
the single value `_respect_rate_limit` computed before the request was
issued — the same value whatever the transport then does — and leaves
the configuration (base URL, API key, session headers,
`rate_limit_wait`) untouched. -/
theorem fetch_frame_effects :
    ∀ (c : ClientState) (f : FileState) (k : ℚ) (env : CallEnv),
      (_make_request c f k env).state.base_url = c.base_url ∧
      (_make_request c f k env).state.api_key = c.api_key ∧
      (_make_request c f k env).state.session_headers = c.session_headers ∧
      (_make_request c f k env).state.rate_limit_wait = c.rate_limit_wait ∧
      (_make_request c f k env).state.last_request_time =
        _respect_rate_limit k c.last_request_time c.rate_limit_wait env.d ∧
      ∀ tr₂ : TransportResult,
        (_make_request c f k
            { env with transport := tr₂ }).state.last_request_time =
          (_make_request c f k env).state.last_request_time := by
  intro c f k env
  obtain ⟨d, tdur, ep, ps, tr, td, mo, so⟩ := env
  refine ⟨?_, ?_, ?_, ?_, ?_, ?_⟩
  · cases tr with
    | netError msg => rw [make_request_netError_eq]
    | ok resp => rw [make_request_ok_eq]
  · cases tr with
    | netError msg => rw [make_request_netError_eq]
    | ok resp => rw [make_request_ok_eq]
  · cases tr with
    | netError msg => rw [make_request_netError_eq]
    | ok resp => rw [make_request_ok_eq]
  · cases tr with
    | netError msg => rw [make_request_netError_eq]
    | ok resp => rw [make_request_ok_eq]
  · cases tr with
    | netError msg => rw [make_request_netError_eq]
    | ok resp => rw [make_request_ok_eq]
  · intro tr₂
    rw [make_request_last, make_request_last]

/-- Result of a call whose transport returned a response: the decoded
body on a non-error status, the wrapped `raise_for_status` message on a
4xx/5xx. -/
theorem make_request_result_of_ok (c : ClientState) (f : FileState) (k : ℚ)
    (env : CallEnv) (resp : HTTPResponse)
    (h : env.transport = TransportResult.ok resp) :
    (_make_request c f k env).result =
      if 400 ≤ resp.status ∧ resp.status < 600 then
        Except.error ("API request error: "
          ++ http_error_text resp.status resp.reason
               (c.base_url ++ "/" ++ env.endpoint))
      else Except.ok resp.body := by
  obtain ⟨d, tdur, ep, ps, tr, td, mo, so⟩ := env
  cases h
  rw [make_request_ok_eq]

/-- Result of a call whose transport failed: the wrapped exception
message. -/
theorem make_request_result_of_netError (c : ClientState) (f : FileState)
    (k : ℚ) (env : CallEnv) (msg : String)
    (h : env.transport = TransportResult.netError msg) :
    (_make_request c f k env).result =
      Except.error ("API request error: " ++ msg) := by
  obtain ⟨d, tdur, ep, ps, tr, td, mo, so⟩ := env
  cases h
  rw [make_request_netError_eq]

/-- Claim C3: every 4xx/5xx response makes `_make_request` raise the
single generic wrapped error, with a message independent of the
response body; a network failure raises the same single generic
wrapped error.  The model consumes exactly one transport outcome per
call, so no retry exists by construction. -/
theorem request_error_wrapping :
    ∀ (c : ClientState) (f : FileState) (k : ℚ) (env : CallEnv),
      (∀ resp : HTTPResponse, env.transport = TransportResult.ok resp →
        400 ≤ resp.status → resp.status < 600 →
        (_make_request c f k env).result =
          Except.error ("API request error: "
            ++ http_error_text resp.status resp.reason
                 (c.base_url ++ "/" ++ env.endpoint)) ∧
        ∀ body₂ : Json,
          (_make_request c f k
              { env with transport :=
                  TransportResult.ok { resp with body := body₂ } }).result =
            (_make_request c f k env).result) ∧
      (∀ msg : String, env.transport = TransportResult.netError msg →
        (_make_request c f k env).result =
          Except.error ("API request error: " ++ msg)) := by
  intro c f k env
  constructor
  · intro resp h h4 h6
    have hs : 400 ≤ resp.status ∧ resp.status < 600 := ⟨h4, h6⟩
    constructor
    · rw [make_request_result_of_ok c f k env resp h]
      simp [hs]
    · intro body₂
      rw [make_request_result_of_ok c f k env resp h,
        make_request_result_of_ok c f k
          { env with transport := TransportResult.ok { resp with body := body₂ } }
          { resp with body := body₂ } rfl]
      simp [hs]
  · intro msg h
    exact make_request_result_of_netError c f k env msg h

/-- Witness for C3: a 500 response from the mocked transport is raised
as the generic wrapped message. -/
theorem request_error_wrapping_witness :
    (_make_request (initClient "https://api.example" "k") none 0
        w_env500).result =
      Except.error ("API request error: "
        ++ http_error_text w_resp500.status w_resp500.reason
             ((initClient "https://api.example" "k").base_url ++ "/"
               ++ w_env500.endpoint)) :=
  ((request_error_wrapping (initClient "https://api.example" "k") none 0
      w_env500).1 w_resp500 rfl (by decide) (by decide)).1

/-- Claim C5: a successful (2xx) response makes `_make_request` return
the decoded JSON body exactly as received. -/
theorem success_returns_body :
    ∀ (c : ClientState) (f : FileState) (k : ℚ) (env : CallEnv)
      (resp : HTTPResponse),
      env.transport = TransportResult.ok resp →
      200 ≤ resp.status → resp.status < 300 →
      (_make_request c f k env).result = Except.ok resp.body := by
  intro c f k env resp h h2 h3
  rw [make_request_result_of_ok c f k env resp h]
  have hs : ¬(400 ≤ resp.status ∧ resp.status < 600) := by omega
  simp [hs]

/-- Witness for C5: the specification's mocked `simple/price` scenario
returns the `{"bitcoin": {"usd": 57234.78}}` structure unmodified. -/
theorem success_returns_body_witness :
    (_make_request (initClient "https://api.example" "k") none 0
        w_env_btc).result = Except.ok w_btc_body :=
  success_returns_body (initClient "https://api.example" "k") none 0
    w_env_btc
    { status := 200, reason := "OK", headers := [], body := w_btc_body }
    rfl (by decide) (by decide)

/-- Each `_update_usage_stats` call increments the total-call count by
exactly one. -/
theorem update_usage_stats_total (u : UsageData) (e : String)
    (ri : List (String × RateValue)) (t m : String) :
    (_update_usage_stats u e ri t m).total_calls = u.total_calls + 1 := rfl

/-- Counterexample to C2 as stated: a call whose transport returns a
500 fails with the generic request error, yet its usage counters are
mutated (total_calls goes from 0 to 1) and the usage file is rewritten
(from absent to present) — because `_update_usage_stats` runs before
`raise_for_status`. -/
theorem usage_mutation_on_http_error_counterexample :
    (∃ msg, (_make_request (initClient "https://api.example" "k") none 0
        w_env500).result = Except.error msg) ∧
    (_make_request (initClient "https://api.example" "k") none 0
        w_env500).state.usage_data.total_calls = 1 ∧
    (initClient "https://api.example" "k").usage_data.total_calls = 0 ∧
    Option.isSome ((_make_request (initClient "https://api.example" "k")
        none 0 w_env500).file) = true :=
  ⟨⟨_, rfl⟩, rfl, rfl, rfl⟩

/-- Claim C2 (amended): the usage counters and the usage file are left
untouched exactly when the transport itself fails (network error);
whenever an HTTP response is received — any status, success or error —
the counters are mutated (`_update_usage_stats`, total_calls + 1) and
the file is rewritten (write success permitting) before
`raise_for_status` can raise. -/
theorem usage_counters_transport_only :
    ∀ (c : ClientState) (f : FileState) (k : ℚ) (env : CallEnv),
      (∀ msg : String, env.transport = TransportResult.netError msg →
        (_make_request c f k env).state.usage_data = c.usage_data ∧
        (_make_request c f k env).file = f) ∧
      (∀ resp : HTTPResponse, env.transport = TransportResult.ok resp →
        (_make_request c f k env).state.usage_data =
          _update_usage_stats c.usage_data env.endpoint
            (_extract_rate_limit_headers resp.headers) env.today env.month ∧
        (_make_request c f k env).state.usage_data.total_calls =
          c.usage_data.total_calls + 1 ∧
        (_make_request c f k env).file =
          _save_usage_data ((_make_request c f k env).state.usage_data)
            env.saveOk f) := by
  intro c f k env
  obtain ⟨d, tdur, ep, ps, tr, td, mo, so⟩ := env
  constructor
  · intro msg h
    cases h
    rw [make_request_netError_eq]
    exact ⟨rfl, rfl⟩
  · intro resp h
    cases h
    rw [make_request_ok_eq]
    exact ⟨rfl, rfl, rfl⟩

/-- Witness for the amended C2: a network failure leaves the fresh
counters and the absent usage file unchanged. -/
theorem usage_counters_transport_only_witness :
    (_make_request (initClient "https://api.example" "k") none 0
        w_env_net).state.usage_data =
      (initClient "https://api.example" "k").usage_data ∧
    (_make_request (initClient "https://api.example" "k") none 0
        w_env_net).file = none :=
  (usage_counters_transport_only (initClient "https://api.example" "k")
      none 0 w_env_net).1 "Connection refused" rfl

/-- Counterexample to C4 as stated: both environment variables set to
the empty string pass the class-level checks — construction does not
fail, because the code only compares against `None`. -/
theorem empty_env_accepted_counterexample :
    classEnvInit (some "") (some "") = Except.ok ("", "") := rfl

/-- Claim C4 (amended): the class-level checks fail exactly when an
environment variable is missing (unset, i.e. `os.getenv` returned
`None`), before any network call exists in scope; any present string —
including the empty string — is accepted. -/
theorem env_check_missing_only :
    ∀ (b k : String),
      classEnvInit none (some k) =
        Except.error "COINGECKO_BASE_URL not set in environment variables." ∧
      classEnvInit none none =
        Except.error "COINGECKO_BASE_URL not set in environment variables." ∧
      classEnvInit (some b) none =
        Except.error "COINGECKO_API_KEY not set in environment variables." ∧
      classEnvInit (some b) (some k) = Except.ok (b, k) :=
  fun _ _ => ⟨rfl, rfl, rfl, rfl⟩

/-- Claim C8: persistence failures are swallowed.  Loading from a
missing usage file, or from one that is unreadable or corrupted (does
not parse as JSON), yields the default counters, so construction
succeeds; and the outcome of a fetch — its result and the entire
client state — is independent of whether the usage-file write
succeeds, so no write failure is ever surfaced. -/
theorem persistence_failures_swallowed :
    ∀ (defaults : List (String × Json)) (msg : String)
      (c : ClientState) (f : FileState) (k : ℚ) (env : CallEnv) (b : Bool),
      _load_usage_data defaults none = defaults ∧
      _load_usage_data defaults (some (Except.error msg)) = defaults ∧
      (_make_request c f k { env with saveOk := b }).result =
        (_make_request c f k env).result ∧
      (_make_request c f k { env with saveOk := b }).state =
        (_make_request c f k env).state := by
  intro defaults msg c f k env b
  obtain ⟨d, tdur, ep, ps, tr, td, mo, so⟩ := env
  refine ⟨rfl, rfl, ?_, ?_⟩
  · cases tr with
    | netError m => rfl
    | ok resp =>
        rw [make_request_ok_eq c f k d tdur ep ps resp td mo b,
          make_request_ok_eq c f k d tdur ep ps resp td mo so]
  · cases tr with
    | netError m => rfl
    | ok resp =>
        rw [make_request_ok_eq c f k d tdur ep ps resp td mo b,
          make_request_ok_eq c f k d tdur ep ps resp td mo so]

/-- Bumping a counter key into an empty dict yields a single entry 1. -/
theorem bump_nil (k : String) : bump [] k = [(k, 1)] := by
  simp [bump, dict_member, dict_get, dict_set]

/-- Bumping the only key of a singleton dict increments its count. -/
theorem bump_singleton (k : String) (n : Nat) :
    bump [(k, n)] k = [(k, n + 1)] := by
  simp [bump, dict_member, dict_get, dict_set]

/-- `K` successive `_update_usage_stats` calls for a fixed endpoint,
day and month, starting from the fresh `__init__` counter state (the
stats-update part of `K` successful same-day requests). -/
def iterate_update (endpoint : String) (ri : List (String × RateValue))
    (today month : String) : Nat → UsageData
  | 0 => freshUsage
  | k + 1 =>
      _update_usage_stats (iterate_update endpoint ri today month k)
        endpoint ri today month

/-- Closed form of the counter state after `k + 1` same-endpoint,
same-day updates from the fresh state. -/
theorem iterate_update_shape (e : String) (ri : List (String × RateValue))
    (t m : String) (k : Nat) :
    iterate_update e ri t m (k + 1) =
      { total_calls := k + 1, calls_today := k + 1
        first_call_date := some t, last_call_date := some t
        rate_limit_info := if ri.isEmpty then [] else ri
        monthly_usage := [(m, k + 1)]
        endpoints_called := [(e, k + 1)]
        daily_calls := some [(t, k + 1)] } := by
  induction k with
  | zero =>
      show _update_usage_stats freshUsage e ri t m = _
      simp [_update_usage_stats, freshUsage, strFalsy, bump_nil,
        dict_get]
  | succ n ihn =>
      show _update_usage_stats (iterate_update e ri t m (n + 1)) e ri t m = _
      rw [ihn]
      cases hri : ri.isEmpty <;>
        simp [_update_usage_stats, strFalsy, bump_singleton, dict_get, hri]

/-- The count a Python read `d.get(k, 0)` observes. -/
def getCount (d : List (String × Nat)) (k : String) : Nat :=
  (dict_get d k).getD 0

/-- Claim C6: starting from a fresh counter state, after `K` successful
calls to the same endpoint on the same day, the per-endpoint count,
the per-day count, the per-month count and the total-call count all
equal `K`. -/
theorem usage_counters_after_k_calls :
    ∀ (K : Nat) (e : String) (ri : List (String × RateValue)) (t m : String),
      (iterate_update e ri t m K).total_calls = K ∧
      getCount ((iterate_update e ri t m K).daily_calls.getD []) t = K ∧
      getCount (iterate_update e ri t m K).monthly_usage m = K ∧
      getCount (iterate_update e ri t m K).endpoints_called e = K := by
  intro K e ri t m
  cases K with
  | zero => simp [iterate_update, freshUsage, getCount, dict_get]
  | succ n =>
      rw [iterate_update_shape]
      simp [getCount, dict_get]

/-- Claim C7: the usage persistence round-trips.  Writing any
usage-counter record to the file (`_save_usage_data`, successful
write) and then constructing a new client that loads it
(`__init__` defaults `encodeUsage freshUsage`, then `_load_usage_data`
merges via `dict.update`) leaves the new client's in-memory record
exactly the saved one. -/
theorem usage_roundtrip :
    ∀ (u : UsageData) (f : FileState),
      _load_usage_data (encodeUsage freshUsage) (_save_usage_data u true f) =
        encodeUsage u := by
  intro u f
  show dict_update (encodeUsage freshUsage) (encodeUsage u) = encodeUsage u
  cases hd : u.daily_calls <;>
    simp [encodeUsage, hd, freshUsage, dict_update, dict_set]

/-- Claim C10: `get_trending_nfts` always returns a dict containing the
key `"nfts"`: for a non-empty response dict containing `"nfts"` it is
`{"nfts": response["nfts"]}`, otherwise `{"nfts": []}` — the caller
never observes an absent `"nfts"` key. -/
theorem trending_nfts_key :
    ∀ response : List (String × Json),
      (∀ v : Json, response ≠ [] → dict_get response "nfts" = some v →
        get_trending_nfts response = [("nfts", v)]) ∧
      ((response = [] ∨ dict_get response "nfts" = none) →
        get_trending_nfts response = [("nfts", Json.arr [])]) ∧
      Option.isSome (dict_get (get_trending_nfts response) "nfts") = true := by
  intro response
  refine ⟨?_, ?_, ?_⟩
  · intro v hne hv
    cases response with
    | nil => exact absurd rfl hne
    | cons a rest => simp [get_trending_nfts, hv]
  · intro h
    cases response with
    | nil => rfl
    | cons a rest =>
        rcases h with h | h
        · exact absurd h (List.cons_ne_nil a rest)
        · simp [get_trending_nfts, h]
  · cases response with
    | nil => rfl
    | cons a rest =>
        cases hv : dict_get (a :: rest) "nfts" <;>
          · simp only [get_trending_nfts]
            rw [hv]
            simp [dict_get]

/-- Witness for C10: a one-entry trending response keeps its `"nfts"`
value unchanged. -/
theorem trending_nfts_key_witness :
    get_trending_nfts [("nfts", Json.str "x")] = [("nfts", Json.str "x")] :=
  (trending_nfts_key [("nfts", Json.str "x")]).1 (Json.str "x")
    (List.cons_ne_nil _ _) (by simp [dict_get])
